import Mathlib

/-!
# Verification of the tower-h2 server connection driver (src/server/mod.rs)

A shallow embedding of the server-side HTTP/2 connection driver:
the `Connection` state machine (`State::{Init, Ready, GoAway, Done}`,
`Connection::poll`, `poll_init`, `poll_main`, `poll_goaway`), the
per-request `Background` responder task, the `Modify` hook contract and
the `Error` taxonomy.

External collaborators (the h2 protocol engine, the service, the executor,
the body-flush helper) are modelled as scripted oracles: an environment
value records, for each poll of a collaborator within one drive
invocation, the answer that collaborator gives.  Observable interactions
(invoking the Modify hook, calling the service, spawning a responder,
signalling graceful shutdown, sending a header frame or a stream reset)
are recorded in an event trace, in the order they occur.
-/

namespace TowerH2

/-- `futures::Async`: a poll either suspends (`NotReady`) or yields a value. -/
inductive Async (α : Type) where
  | notReady
  | ready (value : α)
deriving DecidableEq, Repr

/-- The result of polling a scripted collaborator future once:
`Ok(Async::NotReady)`, `Ok(Async::Ready v)` or `Err e`. -/
inductive FutRes (α : Type) (ε : Type) where
  | notReady
  | ready (value : α)
  | err (e : ε)
deriving DecidableEq, Repr

/-- Opaque cause carried by `h2::Error` values. -/
abbrev H2Error := Nat

/-- Opaque cause carried by `S::InitError` (service instantiation failure). -/
abbrev InitError := Nat

/-- Opaque cause carried by `S::Error` (service readiness failure). -/
abbrev SvcError := Nat

/-- `http::request::Parts` / `http::response::Parts`: the header metadata of a
message (method, uri, headers); mutable by the Modify hook, opaque here. -/
structure Parts where
  method : String
  uri : String
  headers : List (String × String)
deriving DecidableEq, Repr

/-- `http::Request<B>`: header metadata plus a body of type `B`.
`Request<()>` is the body-less proxy handed to the Modify hook. -/
structure Request (β : Type) where
  parts : Parts
  body : β
deriving DecidableEq, Repr

/-- `http::Response<B>`: header metadata plus a body of type `B`. -/
structure Response (β : Type) where
  parts : Parts
  body : β
deriving DecidableEq, Repr

/-- Payload of the engine's inbound body stream (`h2::RecvStream`), opaque. -/
abbrev H2Body := Nat

/-- Modelled from the spec: `RecvBody` (defined in this crate outside
src/server/mod.rs) wraps the engine's inbound body stream; `RecvBody::new`
is the wrapping constructor used to reattach the original body. -/
structure RecvBody where
  inner : H2Body
deriving DecidableEq, Repr

/-- `RecvBody::new(body)`. -/
def RecvBody.new (b : H2Body) : RecvBody := ⟨b⟩

/-- Modelled from the spec: the outbound `Body` capability (trait defined in
this crate outside src/server/mod.rs): it can report whether it is already
exhausted (`is_end_stream`) and produce the chunks flushed later. -/
structure SendBody where
  is_end_stream : Bool
  chunks : List Nat
deriving DecidableEq, Repr

/-- The `Error` enum produced by a `Connection` (the closed taxonomy). -/
inductive Error where
  | handshake (e : H2Error)
  | protocol (e : H2Error)
  | newService (e : InitError)
  | service (e : SvcError)
  | execute
deriving DecidableEq, Repr

/-- `Error::from_init`: classify the error of the Init fork-join
(`Either::A` = handshake side, `Either::B` = service-instantiation side). -/
def Error.from_init : H2Error ⊕ InitError → Error
  | .inl e => .handshake e
  | .inr e => .newService e

/-- State of the `Join` combinator of the Init phase: each side may have
already completed (`futures` keeps the finished value until both are done). -/
structure JoinState where
  a : Option Nat
  b : Option Nat
deriving DecidableEq, Repr

/-- One poll of `Join<MapErr<Handshake>, MapErr<S::Future>>`: poll the
handshake side if still pending (an error wins immediately), then the
service side; complete only when both sides have completed. -/
def joinPollB (js : JoinState) (rb : FutRes Nat InitError) :
    Except (H2Error ⊕ InitError) (Async (Nat × Nat)) × JoinState :=
  match js.b with
  | some w =>
    match js.a with
    | some v => (.ok (.ready (v, w)), js)
    | none => (.ok .notReady, js)
  | none =>
    match rb with
    | .err e => (.error (.inr e), js)
    | .notReady => (.ok .notReady, js)
    | .ready w =>
      match js.a with
      | some v => (.ok (.ready (v, w)), { js with b := some w })
      | none => (.ok .notReady, { js with b := some w })

/-- One poll of the Init fork-join (see `joinPollB` for the second side). -/
def joinPoll (js : JoinState) (ra : FutRes Nat H2Error) (rb : FutRes Nat InitError) :
    Except (H2Error ⊕ InitError) (Async (Nat × Nat)) × JoinState :=
  match js.a with
  | some _ => joinPollB js rb
  | none =>
    match ra with
    | .err e => (.error (.inl e), js)
    | .notReady => joinPollB js rb
    | .ready v => joinPollB { js with a := some v } rb

/-- The `State` enum of a `Connection`.  `init` carries the fork-join
progress; `ready` carries the engine connection handle and the instantiated
service (opaque identifiers; their behaviour is scripted by the
environment); `goAway` carries the engine handle and the stored service
error; `done` is terminal. -/
inductive ConnState where
  | init (js : JoinState)
  | ready (connection : Nat) (service : Nat)
  | goAway (connection : Nat) (error : SvcError)
  | done
deriving DecidableEq, Repr

/-- Answer the service gives to one `poll_ready` probe. -/
inductive ReadyRes where
  | ready
  | notReady
  | err (e : SvcError)
deriving DecidableEq, Repr

/-- Answer the engine gives to one `connection.poll()` (next inbound
stream): a new stream with its per-stream response channel, `None` (clean
end of the stream source), suspension, or a protocol error. -/
inductive NextRes where
  | stream (req : Request H2Body) (respondId : Nat)
  | closed
  | notReady
  | err (e : H2Error)
deriving DecidableEq, Repr

/-- Scripted collaborator answers for one iteration of the dispatch loop:
the `poll_ready` probe, the next-stream poll, and whether the executor
accepts the submitted `Background` task. -/
structure IterScript where
  ready : ReadyRes
  next : NextRes
  execOk : Bool
deriving DecidableEq, Repr

/-- Observable interactions of one drive invocation, in order. -/
inductive Event where
  | modifyCalled (proxy : Request Unit)
  | serviceCalled (req : Request RecvBody)
  | executed (respondId : Nat) (req : Request RecvBody)
  | closeConnection
deriving DecidableEq, Repr

/-- Environment of one `Connection::poll` invocation: scripted answers of
the handshake future, the service-instantiation future, each dispatch-loop
iteration, and the engine's `poll_close` during shutdown. -/
structure Env where
  handshakePoll : FutRes Nat H2Error
  servicePoll : FutRes Nat InitError
  iters : List IterScript
  closePoll : FutRes Unit H2Error

/-- How the dispatch loop of `poll_main` was exited. -/
inductive LoopExit where
  | suspend
  | finished
  | svcErr (e : SvcError)
  | protoErr (e : H2Error)
  | execErr
  | stuck
deriving DecidableEq, Repr

/-- The inner loop of `Connection::poll_main`, one list element per
iteration: probe `service.poll_ready()`; pull the next inbound stream;
split the request, run the Modify hook on the body-less proxy, reattach
the original body to the (possibly mutated) parts; dispatch to the service
and submit a `Background` responder to the executor.  `stuck` is the
modelling artifact of an exhausted script, never reached by the code. -/
def dispatchLoop (modify : Request Unit → Request Unit) :
    List IterScript → LoopExit × List Event
  | [] => (.stuck, [])
  | it :: rest =>
    match it.ready with
    | .notReady => (.suspend, [])
    | .err e => (.svcErr e, [])
    | .ready =>
      match it.next with
      | .err e => (.protoErr e, [])
      | .notReady => (.suspend, [])
      | .closed => (.finished, [])
      | .stream req rid =>
        let proxy : Request Unit := ⟨req.parts, ()⟩
        let mutated := modify proxy
        let dispatched : Request RecvBody := ⟨mutated.parts, RecvBody.new req.body⟩
        if it.execOk then
          let next := dispatchLoop modify rest
          (next.1, .modifyCalled proxy :: .serviceCalled dispatched ::
            .executed rid dispatched :: next.2)
        else
          (.execErr, [.modifyCalled proxy, .serviceCalled dispatched])

/-- Outcome of one `Connection::poll`: suspended, finished successfully,
finished with an error, or (modelling artifact) script exhausted. -/
inductive PollRes where
  | notReady
  | ok
  | err (e : Error)
  | stuck
deriving DecidableEq, Repr

/-- `Connection::poll_goaway` followed by the outer loop's reaction: wait
for the engine to report fully closed, then surface the stored service
error; an error from `poll_close` is mapped to `Error::Protocol` and
propagated by `try_ready!`. -/
def goawayStep (conn : Nat) (e : SvcError) (env : Env) (tr : List Event) :
    ConnState × List Event × PollRes :=
  match env.closePoll with
  | .notReady => (.goAway conn e, tr, .notReady)
  | .err h => (.goAway conn e, tr, .err (.protocol h))
  | .ready _ => (.done, tr, .err (.service e))

/-- `Connection::poll_main` followed by the outer loop's reaction: run the
dispatch loop; on clean end become `Done` and finish successfully; on a
service-readiness error call `close_connection` (graceful shutdown), store
the error, move to `GoAway` and continue into `poll_goaway` (the outer
loop's `PollMain::Again`). -/
def readyStep (modify : Request Unit → Request Unit) (conn svc : Nat) (env : Env) :
    ConnState × List Event × PollRes :=
  match dispatchLoop modify env.iters with
  | (.suspend, tr) => (.ready conn svc, tr, .notReady)
  | (.finished, tr) => (.done, tr, .ok)
  | (.protoErr e, tr) => (.ready conn svc, tr, .err (.protocol e))
  | (.execErr, tr) => (.ready conn svc, tr, .err .execute)
  | (.stuck, tr) => (.ready conn svc, tr, .stuck)
  | (.svcErr e, tr) => goawayStep conn e env (tr ++ [.closeConnection])

/-- `Connection::poll_init` followed by the outer loop's reaction: poll the
fork-join; classify a failure via `Error::from_init`; on joint success
transition to `Ready` and continue into `poll_main`. -/
def initStep (modify : Request Unit → Request Unit) (js : JoinState) (env : Env) :
    ConnState × List Event × PollRes :=
  match joinPoll js env.handshakePoll env.servicePoll with
  | (.error e, js') => (.init js', [], .err (Error.from_init e))
  | (.ok .notReady, js') => (.init js', [], .notReady)
  | (.ok (.ready (c, s)), _) => readyStep modify c s env

/-- A `Connection`: its `State` and the Modify hook (the executor and the
collaborators are scripted by the environment). -/
structure Connection where
  state : ConnState
  modify : Request Unit → Request Unit

/-- The body of `Connection::poll` before the final `map_err`: loop over
the current state, moving only forward. -/
def Connection.pollInner (c : Connection) (env : Env) :
    ConnState × List Event × PollRes :=
  match c.state with
  | .init js => initStep c.modify js env
  | .ready conn svc => readyStep c.modify conn svc env
  | .goAway conn e => goawayStep conn e env []
  | .done => (.done, [], .ok)

/-- `Connection::poll`: run the state loop, and on any error force the
state to `Done` before propagating (`ret.map_err`). -/
def Connection.poll (c : Connection) (env : Env) :
    Connection × List Event × PollRes :=
  match c.pollInner env with
  | (_, tr, .err e) => ({ c with state := .done }, tr, .err e)
  | (st, tr, r) => ({ c with state := st }, tr, r)

/-- `h2::Reason::INTERNAL_ERROR`, the fixed reset signal used for failed
response futures. -/
def INTERNAL_ERROR : Nat := 2

/-- `BackgroundState`: waiting for the application's response future
(holding the per-stream response channel), or flushing the response body.
Modelled from the spec for the flush half: `flush::Flush` (defined in this
crate outside src/server/mod.rs) is the external body-flush collaborator;
`Flush::new(body, stream)` pairs the response body with the send-stream
handle, and its `poll` streams the body until exhausted. -/
inductive BgState where
  | respond (respondId : Nat)
  | flush (body : SendBody) (stream : Nat)
deriving DecidableEq, Repr

/-- The `Background` responder task for one request. -/
structure Background where
  state : BgState
deriving DecidableEq, Repr

/-- Observable interactions of one `Background::poll`. -/
inductive BgEvent where
  | sendReset (reason : Nat)
  | sendResponse (parts : Parts) (endOfStream : Bool)
  | flushPolled
deriving DecidableEq, Repr

/-- Environment of one `Background::poll`: the answer of the application's
response future, the result of `send_response` (`some stream` on success,
`none` on failure), and the answer of the flush collaborator's poll. -/
structure BgEnv where
  responsePoll : FutRes (Response SendBody) Nat
  sendResult : Option Nat
  flushPoll : FutRes Unit Unit
deriving DecidableEq, Repr

/-- Outcome of one `Background::poll`.  The task's error type is `()`: an
`err` outcome carries nothing and is delivered to the executor only, never
to the `Connection`. -/
inductive BgRes where
  | notReady
  | ok
  | err
deriving DecidableEq, Repr

/-- `Background::poll`: in the Respond phase wait for the response future
(on failure send one `INTERNAL_ERROR` reset and stop); on success query
`body.is_end_stream()` eagerly, send the header frame once with that flag;
a send failure completes silently; when the body is not yet exhausted,
transition to the Flush phase (which the loop then polls at once). -/
def Background.poll (bg : Background) (env : BgEnv) :
    Background × List BgEvent × BgRes :=
  match bg.state with
  | .flush body stream =>
    match env.flushPoll with
    | .notReady => (⟨.flush body stream⟩, [.flushPolled], .notReady)
    | .ready _ => (⟨.flush body stream⟩, [.flushPolled], .ok)
    | .err _ => (⟨.flush body stream⟩, [.flushPolled], .err)
  | .respond rid =>
    match env.responsePoll with
    | .notReady => (⟨.respond rid⟩, [], .notReady)
    | .err _ => (⟨.respond rid⟩, [.sendReset INTERNAL_ERROR], .err)
    | .ready resp =>
      let end_stream := resp.body.is_end_stream
      let headerEv := BgEvent.sendResponse resp.parts end_stream
      match env.sendResult with
      | none => (⟨.respond rid⟩, [headerEv], .ok)
      | some stream =>
        if end_stream then
          (⟨.respond rid⟩, [headerEv], .ok)
        else
          match env.flushPoll with
          | .notReady => (⟨.flush resp.body stream⟩, [headerEv, .flushPolled], .notReady)
          | .ready _ => (⟨.flush resp.body stream⟩, [headerEv, .flushPolled], .ok)
          | .err _ => (⟨.flush resp.body stream⟩, [headerEv, .flushPolled], .err)

/-- Is this event the graceful-shutdown signal (`close_connection`)? -/
def Event.isClose : Event → Bool
  | .closeConnection => true
  | _ => false

/-- Is this event an invocation of the Modify hook? -/
def Event.isModify : Event → Bool
  | .modifyCalled _ => true
  | _ => false

/-- Is this event a dispatch to the service (`service.call`)? -/
def Event.isServiceCall : Event → Bool
  | .serviceCalled _ => true
  | _ => false

/-- Forward progress order of the connection states. -/
def ConnState.rank : ConnState → Nat
  | .init _ => 0
  | .ready _ _ => 1
  | .goAway _ _ => 2
  | .done => 3

/-- The dispatch loop never signals graceful shutdown itself: no
`closeConnection` event appears in its trace. -/
theorem dispatchLoop_no_close (m : Request Unit → Request Unit) :
    ∀ its : List IterScript, ((dispatchLoop m its).2).countP Event.isClose = 0
  | [] => by simp [dispatchLoop]
  | it :: rest => by
    have ih := dispatchLoop_no_close m rest
    cases hr : it.ready <;> simp [dispatchLoop, hr]
    cases hn : it.next <;> simp
    cases he : it.execOk
    · simp [he, Event.isClose]
    · simpa [he, Event.isClose, List.countP_cons] using ih

/-- C7: a connection in the `Done` state treats every further drive as a
no-op: the state is unchanged, no collaborator interaction happens, and
the result is "finished successfully". -/
theorem C7_done_noop (c : Connection) (env : Env) (h : c.state = .done) :
    Connection.poll c env = (c, [], .ok) := by
  obtain ⟨st, m⟩ := c
  subst h
  simp [Connection.poll, Connection.pollInner]

/-- Witness for `C7_done_noop` at a concrete connection and environment. -/
theorem C7_done_noop_witness :
    Connection.poll ⟨.done, id⟩ ⟨.notReady, .notReady, [], .notReady⟩ =
      (⟨.done, id⟩, [], .ok) :=
  C7_done_noop ⟨.done, id⟩ ⟨.notReady, .notReady, [], .notReady⟩ rfl

/-- C1 fails on the code: with stored service error `5`, an engine error
`7` reported while closing is surfaced as `Error::Protocol(7)` — it is not
ignored, and the result is not `Error::Service(5)`. -/
theorem C1_counterexample :
    (Connection.poll ⟨.goAway 0 5, id⟩ ⟨.notReady, .notReady, [], .err 7⟩).2.2 =
        .err (.protocol 7) ∧
      PollRes.err (.protocol 7) ≠ .err (.service 5) := by
  exact ⟨rfl, by decide⟩

/-- C1 amended: in the `GoAway` state with stored service error `E`, once
the engine reports fully closed the drive finishes with
`Error::Service(E)`; but if the engine reports an error `h` while closing,
the drive finishes with `Error::Protocol(h)` instead of the stored service
error; while the engine is still closing, the drive suspends with the
state unchanged. -/
theorem C1_goaway_amended (m : Request Unit → Request Unit) (conn : Nat)
    (E : SvcError) (env : Env) :
    (env.closePoll = .ready () →
      Connection.poll ⟨.goAway conn E, m⟩ env = (⟨.done, m⟩, [], .err (.service E))) ∧
    (∀ h, env.closePoll = .err h →
      Connection.poll ⟨.goAway conn E, m⟩ env = (⟨.done, m⟩, [], .err (.protocol h))) ∧
    (env.closePoll = .notReady →
      Connection.poll ⟨.goAway conn E, m⟩ env = (⟨.goAway conn E, m⟩, [], .notReady)) := by
  refine ⟨fun hc => ?_, fun h hc => ?_, fun hc => ?_⟩ <;>
    simp [Connection.poll, Connection.pollInner, goawayStep, hc]

/-- Witness for `C1_goaway_amended`: each of the three close-poll outcomes
at a concrete connection and environment. -/
theorem C1_goaway_amended_witness :
    Connection.poll ⟨.goAway 0 5, id⟩ ⟨.notReady, .notReady, [], .ready ()⟩ =
        (⟨.done, id⟩, [], .err (.service 5)) ∧
      Connection.poll ⟨.goAway 0 5, id⟩ ⟨.notReady, .notReady, [], .err 7⟩ =
        (⟨.done, id⟩, [], .err (.protocol 7)) ∧
      Connection.poll ⟨.goAway 0 5, id⟩ ⟨.notReady, .notReady, [], .notReady⟩ =
        (⟨.goAway 0 5, id⟩, [], .notReady) :=
  ⟨(C1_goaway_amended id 0 5 ⟨.notReady, .notReady, [], .ready ()⟩).1 rfl,
   (C1_goaway_amended id 0 5 ⟨.notReady, .notReady, [], .err 7⟩).2.1 7 rfl,
   (C1_goaway_amended id 0 5 ⟨.notReady, .notReady, [], .notReady⟩).2.2 rfl⟩

/-- C8: in the `Ready` state, when the engine reports no more inbound
streams (clean end), the drive finishes successfully and the state becomes
`Done`; when pulling the next stream yields a protocol error `e`, the
drive fails with `Error::Protocol(e)` (and the state is forced to `Done`). -/
theorem C8_stream_end_and_protocol (m : Request Unit → Request Unit)
    (conn svc : Nat) (env : Env) :
    (∀ tr, dispatchLoop m env.iters = (.finished, tr) →
      Connection.poll ⟨.ready conn svc, m⟩ env = (⟨.done, m⟩, tr, .ok)) ∧
    (∀ e tr, dispatchLoop m env.iters = (.protoErr e, tr) →
      Connection.poll ⟨.ready conn svc, m⟩ env = (⟨.done, m⟩, tr, .err (.protocol e))) := by
  refine ⟨fun tr h => ?_, fun e tr h => ?_⟩ <;>
    simp [Connection.poll, Connection.pollInner, readyStep, h]

/-- Witness for `C8_stream_end_and_protocol`: clean end and protocol error
at concrete environments. -/
theorem C8_stream_end_and_protocol_witness :
    Connection.poll ⟨.ready 0 1, id⟩ ⟨.notReady, .notReady, [⟨.ready, .closed, true⟩], .notReady⟩ =
        (⟨.done, id⟩, [], .ok) ∧
      Connection.poll ⟨.ready 0 1, id⟩ ⟨.notReady, .notReady, [⟨.ready, .err 9, true⟩], .notReady⟩ =
        (⟨.done, id⟩, [], .err (.protocol 9)) :=
  ⟨(C8_stream_end_and_protocol id 0 1
      ⟨.notReady, .notReady, [⟨.ready, .closed, true⟩], .notReady⟩).1 [] rfl,
   (C8_stream_end_and_protocol id 0 1
      ⟨.notReady, .notReady, [⟨.ready, .err 9, true⟩], .notReady⟩).2 9 [] rfl⟩

/-- C5: a rejected executor submission is fatal to the whole connection:
the drive returns `Error::Execute` at once (state forced to `Done`), and
the rejecting iteration's trace shows the Modify hook and the service call
but no spawn and nothing from later iterations, whatever the rest of the
script holds. -/
theorem C5_execute_error_fatal (m : Request Unit → Request Unit)
    (conn svc : Nat) (env : Env) :
    (∀ tr, dispatchLoop m env.iters = (.execErr, tr) →
      Connection.poll ⟨.ready conn svc, m⟩ env = (⟨.done, m⟩, tr, .err .execute)) ∧
    (∀ req rid rest, dispatchLoop m (⟨.ready, .stream req rid, false⟩ :: rest) =
      (.execErr, [.modifyCalled ⟨req.parts, ()⟩,
        .serviceCalled ⟨(m ⟨req.parts, ()⟩).parts, RecvBody.new req.body⟩])) := by
  refine ⟨fun tr h => ?_, fun req rid rest => ?_⟩
  · simp [Connection.poll, Connection.pollInner, readyStep, h]
  · simp [dispatchLoop]

/-- Witness for `C5_execute_error_fatal` at a concrete request whose
submission is rejected. -/
theorem C5_execute_error_fatal_witness :
    Connection.poll ⟨.ready 0 1, id⟩
        ⟨.notReady, .notReady, [⟨.ready, .stream ⟨⟨"GET", "/", []⟩, 11⟩ 4, false⟩], .notReady⟩ =
      (⟨.done, id⟩,
       [.modifyCalled ⟨⟨"GET", "/", []⟩, ()⟩,
        .serviceCalled ⟨⟨"GET", "/", []⟩, RecvBody.new 11⟩],
       .err .execute) :=
  (C5_execute_error_fatal id 0 1
      ⟨.notReady, .notReady, [⟨.ready, .stream ⟨⟨"GET", "/", []⟩, 11⟩ 4, false⟩], .notReady⟩).1
    _ rfl

/-- C2: in the `Ready` state, when the service's readiness probe fails
with `E`, the drive exits the dispatch loop without suspending, signals
graceful shutdown on the engine handle exactly once (`closeConnection`
appears exactly once in the drive's trace), stores `E` and moves the state
to `GoAway` (observed here with the engine still closing). -/
theorem C2_service_error_goaway (m : Request Unit → Request Unit)
    (conn svc : Nat) (E : SvcError) (env : Env) (tr : List Event)
    (h : dispatchLoop m env.iters = (.svcErr E, tr))
    (hc : env.closePoll = .notReady) :
    Connection.poll ⟨.ready conn svc, m⟩ env =
      (⟨.goAway conn E, m⟩, tr ++ [Event.closeConnection], .notReady) ∧
    (tr ++ [Event.closeConnection]).countP Event.isClose = 1 := by
  constructor
  · simp [Connection.poll, Connection.pollInner, readyStep, h, goawayStep, hc]
  · have h0 : tr.countP Event.isClose = 0 := by
      have h1 := dispatchLoop_no_close m env.iters
      rw [h] at h1
      simpa using h1
    simp [List.countP_append, h0, Event.isClose, List.countP_cons]

/-- Witness for `C2_service_error_goaway`: the probe fails at once with
error 3. -/
theorem C2_service_error_goaway_witness :
    Connection.poll ⟨.ready 0 1, id⟩
        ⟨.notReady, .notReady, [⟨.err 3, .closed, true⟩], .notReady⟩ =
      (⟨.goAway 0 3, id⟩, [] ++ [Event.closeConnection], .notReady) ∧
    (([] : List Event) ++ [Event.closeConnection]).countP Event.isClose = 1 :=
  C2_service_error_goaway id 0 1 3
    ⟨.notReady, .notReady, [⟨.err 3, .closed, true⟩], .notReady⟩ [] rfl rfl

/-- C3: in the `Init` state, a handshake failure `e` yields
`Error::Handshake(e)`, a service-instantiation failure `e` yields
`Error::NewService(e)` (both forcing the state to `Done`), and joint
success transitions the state to `Ready` carrying the engine handle and
the instantiated service (observed with the service not yet ready, so the
dispatch loop suspends immediately). -/
theorem C3_init_outcomes (m : Request Unit → Request Unit) (env : Env) :
    (∀ e, env.handshakePoll = .err e →
      Connection.poll ⟨.init ⟨none, none⟩, m⟩ env =
        (⟨.done, m⟩, [], .err (.handshake e))) ∧
    (∀ e, env.handshakePoll = .notReady → env.servicePoll = .err e →
      Connection.poll ⟨.init ⟨none, none⟩, m⟩ env =
        (⟨.done, m⟩, [], .err (.newService e))) ∧
    (∀ c s it rest, env.handshakePoll = .ready c → env.servicePoll = .ready s →
      env.iters = it :: rest → it.ready = .notReady →
      Connection.poll ⟨.init ⟨none, none⟩, m⟩ env =
        (⟨.ready c s, m⟩, [], .notReady)) := by
  refine ⟨fun e ha => ?_, fun e ha hb => ?_, fun c s it rest ha hb hi hr => ?_⟩
  · simp [Connection.poll, Connection.pollInner, initStep, joinPoll, ha, Error.from_init]
  · simp [Connection.poll, Connection.pollInner, initStep, joinPoll, joinPollB, ha, hb,
      Error.from_init]
  · simp [Connection.poll, Connection.pollInner, initStep, joinPoll, joinPollB, ha, hb,
      readyStep, dispatchLoop, hi, hr]

/-- Witness for `C3_init_outcomes`: the three Init outcomes at concrete
environments. -/
theorem C3_init_outcomes_witness :
    Connection.poll ⟨.init ⟨none, none⟩, id⟩ ⟨.err 4, .notReady, [], .notReady⟩ =
        (⟨.done, id⟩, [], .err (.handshake 4)) ∧
      Connection.poll ⟨.init ⟨none, none⟩, id⟩ ⟨.notReady, .err 6, [], .notReady⟩ =
        (⟨.done, id⟩, [], .err (.newService 6)) ∧
      Connection.poll ⟨.init ⟨none, none⟩, id⟩
          ⟨.ready 2, .ready 9, [⟨.notReady, .closed, true⟩], .notReady⟩ =
        (⟨.ready 2 9, id⟩, [], .notReady) :=
  ⟨(C3_init_outcomes id ⟨.err 4, .notReady, [], .notReady⟩).1 4 rfl,
   (C3_init_outcomes id ⟨.notReady, .err 6, [], .notReady⟩).2.1 6 rfl rfl,
   (C3_init_outcomes id
      ⟨.ready 2, .ready 9, [⟨.notReady, .closed, true⟩], .notReady⟩).2.2
     2 9 ⟨.notReady, .closed, true⟩ [] rfl rfl rfl rfl⟩

/-- Across any run of the dispatch loop, the Modify hook is invoked as
many times as the service is called. -/
theorem dispatchLoop_modify_count (m : Request Unit → Request Unit) :
    ∀ its : List IterScript,
      ((dispatchLoop m its).2).countP Event.isModify =
        ((dispatchLoop m its).2).countP Event.isServiceCall
  | [] => by simp [dispatchLoop]
  | it :: rest => by
    have ih := dispatchLoop_modify_count m rest
    cases hr : it.ready <;> simp [dispatchLoop, hr]
    cases hn : it.next <;> simp
    cases he : it.execOk
    · simp [he, Event.isModify, Event.isServiceCall, List.countP_cons]
    · simpa [he, Event.isModify, Event.isServiceCall, List.countP_cons] using ih

/-- C4: every accepted request triggers exactly one synchronous Modify
invocation, strictly before the service call: the iteration dispatching a
stream emits, in order, the Modify invocation on the body-less proxy built
from the request's parts, the service call on the (possibly mutated) parts
with the original body reattached (wrapped by `RecvBody::new`), and the
responder spawn — before anything from later iterations; and across any
script, Modify invocations and service calls are in bijection. -/
theorem C4_modify_before_call (m : Request Unit → Request Unit) :
    (∀ req rid (rest : List IterScript),
      dispatchLoop m (⟨.ready, .stream req rid, true⟩ :: rest) =
        ((dispatchLoop m rest).1,
         .modifyCalled ⟨req.parts, ()⟩ ::
         .serviceCalled ⟨(m ⟨req.parts, ()⟩).parts, RecvBody.new req.body⟩ ::
         .executed rid ⟨(m ⟨req.parts, ()⟩).parts, RecvBody.new req.body⟩ ::
         (dispatchLoop m rest).2)) ∧
    (∀ its : List IterScript,
      ((dispatchLoop m its).2).countP Event.isModify =
        ((dispatchLoop m its).2).countP Event.isServiceCall) := by
  refine ⟨fun req rid rest => ?_, dispatchLoop_modify_count m⟩
  simp [dispatchLoop]

/-- The rank of a connection state is at most that of `Done`. -/
theorem rank_le_three (st : ConnState) : st.rank ≤ 3 := by
  cases st <;> simp [ConnState.rank]

/-- `poll_goaway` leaves the state at `GoAway` or `Done`: rank at least 2. -/
theorem goawayStep_rank (conn : Nat) (e : SvcError) (env : Env) (tr : List Event) :
    2 ≤ ((goawayStep conn e env tr).1).rank := by
  cases hc : env.closePoll <;> simp [goawayStep, hc, ConnState.rank]

/-- The state loop of `Connection::poll` never decreases the state rank. -/
theorem pollInner_rank (c : Connection) (env : Env) :
    c.state.rank ≤ ((Connection.pollInner c env).1).rank := by
  obtain ⟨st, m⟩ := c
  cases st with
  | init js => simp [ConnState.rank]
  | ready conn svc =>
    rcases hd : dispatchLoop m env.iters with ⟨ex, tr⟩
    cases ex
    case svcErr e =>
      have h2 := goawayStep_rank conn e env (tr ++ [Event.closeConnection])
      have hstep : Connection.pollInner ⟨ConnState.ready conn svc, m⟩ env =
          goawayStep conn e env (tr ++ [Event.closeConnection]) := by
        simp [Connection.pollInner, readyStep, hd]
      rw [hstep]
      exact le_trans (by norm_num [ConnState.rank]) h2
    all_goals simp [Connection.pollInner, readyStep, hd, ConnState.rank]
  | goAway conn e =>
    cases hc : env.closePoll <;>
      simp [Connection.pollInner, goawayStep, hc, ConnState.rank]
  | done => simp [Connection.pollInner, ConnState.rank]

/-- C6: state transitions only move forward along
Init → Ready → GoAway → Done (rank never decreases across a drive), and
every drive that returns an error leaves the state at `Done`, so the
connection cannot be driven past a failure twice. -/
theorem C6_forward_only (c : Connection) (env : Env) :
    c.state.rank ≤ ((Connection.poll c env).1).state.rank ∧
    (∀ e, (Connection.poll c env).2.2 = .err e →
      ((Connection.poll c env).1).state = .done) := by
  have hrank := pollInner_rank c env
  rcases hpi : Connection.pollInner c env with ⟨st', tr, r⟩
  rw [hpi] at hrank
  cases r with
  | err e =>
    refine ⟨?_, fun e' _ => ?_⟩
    · simpa [Connection.poll, hpi, ConnState.rank] using rank_le_three c.state
    · simp [Connection.poll, hpi]
  | notReady => refine ⟨?_, fun e' he' => ?_⟩ <;> simp_all [Connection.poll, hpi]
  | ok => refine ⟨?_, fun e' he' => ?_⟩ <;> simp_all [Connection.poll, hpi]
  | stuck => refine ⟨?_, fun e' he' => ?_⟩ <;> simp_all [Connection.poll, hpi]

/-- Witness for `C6_forward_only` at a failing drive: rank grows and the
state ends at `Done`. -/
theorem C6_forward_only_witness :
    (ConnState.goAway 0 5).rank ≤
        ((Connection.poll ⟨.goAway 0 5, id⟩ ⟨.notReady, .notReady, [], .err 7⟩).1).state.rank ∧
      ((Connection.poll ⟨.goAway 0 5, id⟩ ⟨.notReady, .notReady, [], .err 7⟩).1).state = .done :=
  ⟨(C6_forward_only ⟨.goAway 0 5, id⟩ ⟨.notReady, .notReady, [], .err 7⟩).1,
   (C6_forward_only ⟨.goAway 0 5, id⟩ ⟨.notReady, .notReady, [], .err 7⟩).2
     (.protocol 7) rfl⟩

/-- Is this event a stream reset? -/
def BgEvent.isReset : BgEvent → Bool
  | .sendReset _ => true
  | _ => false

/-- C9: a responder whose response future fails sends exactly one stream
reset carrying the fixed `INTERNAL_ERROR` signal and stops.  Its outcome
(`BgRes.err`) carries no payload and is delivered to the executor, never
to the `Connection`: no value of the connection `Error` taxonomy is
produced. -/
theorem C9_response_failure_reset (rid : Nat) (env : BgEnv) (e : Nat)
    (h : env.responsePoll = .err e) :
    Background.poll ⟨.respond rid⟩ env =
      (⟨.respond rid⟩, [.sendReset INTERNAL_ERROR], .err) ∧
    ((Background.poll ⟨.respond rid⟩ env).2.1).countP BgEvent.isReset = 1 := by
  constructor <;> simp [Background.poll, h, BgEvent.isReset]

/-- Witness for `C9_response_failure_reset` at a concrete failed response
future. -/
theorem C9_response_failure_reset_witness :
    Background.poll ⟨.respond 4⟩ ⟨.err 3, none, .notReady⟩ =
        (⟨.respond 4⟩, [.sendReset INTERNAL_ERROR], .err) ∧
      ((Background.poll ⟨.respond 4⟩ ⟨.err 3, none, .notReady⟩).2.1).countP
          BgEvent.isReset = 1 :=
  C9_response_failure_reset 4 ⟨.err 3, none, .notReady⟩ 3 rfl

/-- C10: a responder whose response future succeeds queries the body's
`is_end_stream` eagerly and sends the header frame exactly once with that
flag; if the flag is true it completes at once with no flush phase; if it
is false it transitions to the flush phase (which the loop polls at once);
a header-send failure makes it complete silently, with no retry and no
error. -/
theorem C10_response_success_header (rid : Nat) (env : BgEnv)
    (resp : Response SendBody) (h : env.responsePoll = .ready resp) :
    (∀ s, env.sendResult = some s → resp.body.is_end_stream = true →
      Background.poll ⟨.respond rid⟩ env =
        (⟨.respond rid⟩, [.sendResponse resp.parts true], .ok)) ∧
    (∀ s, env.sendResult = some s → resp.body.is_end_stream = false →
      (Background.poll ⟨.respond rid⟩ env).1 = ⟨.flush resp.body s⟩ ∧
      (Background.poll ⟨.respond rid⟩ env).2.1 =
        [.sendResponse resp.parts false, .flushPolled]) ∧
    (env.sendResult = none →
      Background.poll ⟨.respond rid⟩ env =
        (⟨.respond rid⟩, [.sendResponse resp.parts resp.body.is_end_stream], .ok)) := by
  refine ⟨fun s hs he => ?_, fun s hs he => ?_, fun hs => ?_⟩
  · simp [Background.poll, h, hs, he]
  · cases hf : env.flushPoll <;> simp [Background.poll, h, hs, he, hf]
  · simp [Background.poll, h, hs]

/-- Witness for `C10_response_success_header`: an end-of-stream response,
a response with a pending body, and a failed header send. -/
theorem C10_response_success_header_witness :
    Background.poll ⟨.respond 1⟩ ⟨.ready ⟨⟨"200", "", []⟩, ⟨true, []⟩⟩, some 7, .notReady⟩ =
        (⟨.respond 1⟩, [.sendResponse ⟨"200", "", []⟩ true], .ok) ∧
      ((Background.poll ⟨.respond 1⟩
            ⟨.ready ⟨⟨"200", "", []⟩, ⟨false, [1, 2]⟩⟩, some 7, .notReady⟩).1 =
          ⟨.flush ⟨false, [1, 2]⟩ 7⟩ ∧
        (Background.poll ⟨.respond 1⟩
            ⟨.ready ⟨⟨"200", "", []⟩, ⟨false, [1, 2]⟩⟩, some 7, .notReady⟩).2.1 =
          [.sendResponse ⟨"200", "", []⟩ false, .flushPolled]) ∧
      Background.poll ⟨.respond 1⟩ ⟨.ready ⟨⟨"200", "", []⟩, ⟨true, []⟩⟩, none, .notReady⟩ =
        (⟨.respond 1⟩, [.sendResponse ⟨"200", "", []⟩ true], .ok) :=
  ⟨(C10_response_success_header 1 ⟨.ready ⟨⟨"200", "", []⟩, ⟨true, []⟩⟩, some 7, .notReady⟩
      ⟨⟨"200", "", []⟩, ⟨true, []⟩⟩ rfl).1 7 rfl rfl,
   (C10_response_success_header 1
      ⟨.ready ⟨⟨"200", "", []⟩, ⟨false, [1, 2]⟩⟩, some 7, .notReady⟩
      ⟨⟨"200", "", []⟩, ⟨false, [1, 2]⟩⟩ rfl).2.1 7 rfl rfl,
   (C10_response_success_header 1 ⟨.ready ⟨⟨"200", "", []⟩, ⟨true, []⟩⟩, none, .notReady⟩
      ⟨⟨"200", "", []⟩, ⟨true, []⟩⟩ rfl).2.2 rfl⟩

end TowerH2
